import Mathlib

/-
Verification development for the SafeHaven emergency-reporting client.

The embedding covers the core logic of the two source files:
  src/components/GestureRecognition.tsx : landmark geometry, the gesture
    classifier (recognizeGesture), the label tables, and the history
    debouncer inside onResults;
  src/pages/Index.tsx : the voice keyword spotter (processVoiceTranscript)
    and the report log (createReport).

Numeric convention: the source computes with JavaScript numbers; the
embedding works with exact rationals for coordinates, confidences and
the keyword/report data, and with integers for millisecond timestamps.
Square roots (Euclidean distances) are handled exactly: every comparison
the source makes between square roots is decided on the squares, and a
bridging lemma per comparison proves the Boolean test equivalent to the
original real-number comparison with Real.sqrt.
-/

namespace SafeHaven

/-- One hand landmark, interface HandLandmarks of GestureRecognition.tsx:
normalized image-plane coordinates. -/
structure Landmark where
  x : ℚ
  y : ℚ
deriving DecidableEq

/-- Squared Euclidean distance between two landmarks.  The source always
forms Math.sqrt of this quantity; the embedding keeps the square and
decides each comparison on squares (see the bridging lemmas below). -/
def sqDist (p q : Landmark) : ℚ :=
  (p.x - q.x) ^ 2 + (p.y - q.y) ^ 2

/-- Finger-extension test, isFingerExtended of recognizeGesture.
Source: tipToMcp > (tipToPip + pipToMcp) * 0.8, where the three names are
the Euclidean distances.  Writing A = sqDist tip mcp, B = sqDist tip pip,
C = sqDist pip mcp, the source condition sqrt A > 0.8 * (sqrt B + sqrt C)
is equivalent (all quantities nonnegative) to
0 < A - (16/25)*(B+C) and (1024/625)*(B*C) < (A - (16/25)*(B+C))^2,
which is exactly what is decided here; the lemma isFingerExtended_iff
proves the equivalence. -/
def isFingerExtended (tip pip mcp : Landmark) : Bool :=
  decide (0 < sqDist tip mcp - (16 / 25) * (sqDist tip pip + sqDist pip mcp) ∧
    (1024 / 625) * (sqDist tip pip * sqDist pip mcp) <
      (sqDist tip mcp - (16 / 25) * (sqDist tip pip + sqDist pip mcp)) ^ 2)

/-- Thumb-extension test, isThumbExtended of recognizeGesture.
Source: thumbToWrist > thumbMcpToWrist * 1.2 on Euclidean distances;
squaring both (nonnegative) sides gives the exact rational test decided
here; the lemma isThumbExtended_iff proves the equivalence. -/
def isThumbExtended (thumbTip thumbMcp wrist : Landmark) : Bool :=
  decide ((36 / 25) * sqDist thumbMcp wrist < sqDist thumbTip wrist)

/-- The gesture types recognizeGesture can report (its gestureType strings). -/
inductive GestureType where
  | thumb_up
  | peace_sign
  | pointing
  | fist
  | open_palm
  | ok_sign
deriving DecidableEq

/-- Result of the classifier: the source returns
gestureType ? { type, confidence } : null. -/
structure GestureResult where
  type : GestureType
  confidence : ℚ
deriving DecidableEq

/-- The fixed pattern table of recognizeGesture (the if/else chain on the
five extension booleans), paired with the base confidence each branch
assigns.  The source initializes gestureType = '' and returns null when no
branch fires; that case is the none here. -/
def matchPattern (thumb index middle ring pinky : Bool) :
    Option (GestureType × ℚ) :=
  if thumb && !index && !middle && !ring && !pinky then
    some (GestureType.thumb_up, 9 / 10)
  else if !thumb && index && middle && !ring && !pinky then
    some (GestureType.peace_sign, 9 / 10)
  else if !thumb && index && !middle && !ring && !pinky then
    some (GestureType.pointing, 17 / 20)
  else if !thumb && !index && !middle && !ring && !pinky then
    some (GestureType.fist, 9 / 10)
  else if thumb && index && middle && ring && pinky then
    some (GestureType.open_palm, 4 / 5)
  else if thumb && index && !middle && !ring && !pinky then
    some (GestureType.ok_sign, 4 / 5)
  else none

/-- Number of extended fingers, source:
[thumb, index, middle, ring, pinky].filter(Boolean).length. -/
def extendedCount (thumb index middle ring pinky : Bool) : ℕ :=
  [thumb, index, middle, ring, pinky].count true

/-- Default landmark used by the list lookups below; with the length
guard of recognizeGesture every index 0..20 hits a real element, so the
default is never observable. -/
def dfl : Landmark := ⟨0, 0⟩

/-- Thumb extension state of a hand, indices 4 (tip), 2 (mcp), 0 (wrist). -/
def thumbExtOf (hand : List Landmark) : Bool :=
  isThumbExtended (hand.getD 4 dfl) (hand.getD 2 dfl) (hand.getD 0 dfl)

/-- Index-finger extension state, indices 8 (tip), 6 (pip), 5 (mcp). -/
def indexExtOf (hand : List Landmark) : Bool :=
  isFingerExtended (hand.getD 8 dfl) (hand.getD 6 dfl) (hand.getD 5 dfl)

/-- Middle-finger extension state, indices 12 (tip), 10 (pip), 9 (mcp). -/
def middleExtOf (hand : List Landmark) : Bool :=
  isFingerExtended (hand.getD 12 dfl) (hand.getD 10 dfl) (hand.getD 9 dfl)

/-- Ring-finger extension state, indices 16 (tip), 14 (pip), 13 (mcp). -/
def ringExtOf (hand : List Landmark) : Bool :=
  isFingerExtended (hand.getD 16 dfl) (hand.getD 14 dfl) (hand.getD 13 dfl)

/-- Pinky extension state, indices 20 (tip), 18 (pip), 17 (mcp). -/
def pinkyExtOf (hand : List Landmark) : Bool :=
  isFingerExtended (hand.getD 20 dfl) (hand.getD 18 dfl) (hand.getD 17 dfl)

/-- Extended-finger count of a hand. -/
def extCountOf (hand : List Landmark) : ℕ :=
  extendedCount (thumbExtOf hand) (indexExtOf hand) (middleExtOf hand)
    (ringExtOf hand) (pinkyExtOf hand)

/-- Palm center of recognizeGesture: componentwise mean of the four
non-thumb MCP landmarks (indices 5, 9, 13, 17). -/
def palmCenterOf (hand : List Landmark) : Landmark :=
  ⟨((hand.getD 5 dfl).x + (hand.getD 9 dfl).x + (hand.getD 13 dfl).x +
      (hand.getD 17 dfl).x) / 4,
   ((hand.getD 5 dfl).y + (hand.getD 9 dfl).y + (hand.getD 13 dfl).y +
      (hand.getD 17 dfl).y) / 4⟩

/-- Square of handSize in recognizeGesture: handSize is the Euclidean
distance from the wrist (index 0) to the palm center. -/
def handSizeSq (hand : List Landmark) : ℚ :=
  sqDist (hand.getD 0 dfl) (palmCenterOf hand)

/-- Confidence adjustment of recognizeGesture:
confidence += 0.05 if the extended count is exactly 1, 2 or 5;
confidence += 0.05 if handSize > 0.15 and handSize < 0.4 (decided on the
square: 9/400 < handSizeSq < 4/25, see sq_band_iff);
finally confidence = min(confidence, 0.95). -/
def adjustConfidence (base : ℚ) (count : ℕ) (hs : ℚ) : ℚ :=
  let c1 := if count = 1 ∨ count = 2 ∨ count = 5 then base + 1 / 20 else base
  let c2 := if 9 / 400 < hs ∧ hs < 4 / 25 then c1 + 1 / 20 else c1
  min c2 (19 / 20)

/-- The gesture classifier recognizeGesture of GestureRecognition.tsx:
rejects hands with fewer than 21 landmarks, computes the five extension
booleans, matches them against the pattern table, then adjusts the base
confidence. -/
def recognizeGesture (hand : List Landmark) : Option GestureResult :=
  if hand.length < 21 then none
  else
    match matchPattern (thumbExtOf hand) (indexExtOf hand) (middleExtOf hand)
        (ringExtOf hand) (pinkyExtOf hand) with
    | none => none
    | some (gt, base) =>
        some ⟨gt, adjustConfidence base (extCountOf hand) (handSizeSq hand)⟩

/-- The two label-table modes of the gesture component. -/
inductive Mode where
  | alphabet
  | word
deriving DecidableEq

/-- The alphabetGestures table; ok_sign has no entry there, which the
source observes as an undefined (falsy) lookup. -/
def alphabetGestures : GestureType → Option String
  | GestureType.thumb_up => some "A"
  | GestureType.peace_sign => some "V"
  | GestureType.pointing => some "I"
  | GestureType.fist => some "B"
  | GestureType.open_palm => some "STOP"
  | GestureType.ok_sign => none

/-- The wordGestures table. -/
def wordGestures : GestureType → Option String
  | GestureType.thumb_up => some "YES"
  | GestureType.peace_sign => some "PEACE"
  | GestureType.pointing => some "I"
  | GestureType.fist => some "NO"
  | GestureType.open_palm => some "HELP"
  | GestureType.ok_sign => some "OK"

/-- getCurrentGestures: pick the label table of the active mode. -/
def getCurrentGestures (m : Mode) : GestureType → Option String :=
  match m with
  | Mode.alphabet => alphabetGestures
  | Mode.word => wordGestures

/-- One history entry, interface GestureData of GestureRecognition.tsx;
timestamps are milliseconds. -/
structure GestureData where
  gesture : String
  confidence : ℚ
  timestamp : ℤ
  mode : Mode
deriving DecidableEq

/-- The setHistory updater inside onResults: drop the new event when the
last entry carries the same label and is less than 1000 ms old, else
append.  The two new Date() calls of the source are modeled by the single
clock reading now. -/
def appendGesture (prev : List GestureData) (gestureText : String) (conf : ℚ)
    (now : ℤ) (m : Mode) : List GestureData :=
  match prev.getLast? with
  | some lastEntry =>
      if lastEntry.gesture = gestureText ∧ now - lastEntry.timestamp < 1000 then
        prev
      else prev ++ [⟨gestureText, conf, now, m⟩]
  | none => prev ++ [⟨gestureText, conf, now, m⟩]

/-- State owned by the gesture component: active mode, history, and the
currentText / confidence display pair. -/
structure RecognitionSession where
  mode : Mode
  history : List GestureData
  currentText : String
  confidence : ℚ
deriving DecidableEq

/-- The setMode handler of the mode toggle buttons: it only replaces the
mode state. -/
def setMode (s : RecognitionSession) (m : Mode) : RecognitionSession :=
  { s with mode := m }

/-- Per-hand body of onResults: classify, look the type up in the current
label table, and when the lookup succeeds and confidence > 0.7 update the
display pair and the (debounced) history. -/
def processFrame (s : RecognitionSession) (hand : List Landmark) (now : ℤ) :
    RecognitionSession :=
  match recognizeGesture hand with
  | none => s
  | some g =>
      match getCurrentGestures s.mode g.type with
      | none => s
      | some gestureText =>
          if 7 / 10 < g.confidence then
            { s with
              currentText := gestureText
              confidence := g.confidence
              history := appendGesture s.history gestureText g.confidence now s.mode }
          else s

/-- Keyword severity of the voice spotter. -/
inductive Severity where
  | high
  | critical
deriving DecidableEq

/-- Value part of one emergencyKeywords entry of processVoiceTranscript. -/
structure KeywordInfo where
  service : String
  number : String
  severity : Severity
deriving DecidableEq

/-- The emergencyKeywords object of processVoiceTranscript, as the flat
ordered association list Object.entries iterates (string keys, insertion
order). -/
def emergencyKeywords : List (String × KeywordInfo) :=
  [("help", ⟨"Emergency Services", "108", Severity.high⟩),
   ("emergency", ⟨"Emergency Services", "108", Severity.high⟩),
   ("fire", ⟨"Fire Department", "101", Severity.critical⟩),
   ("police", ⟨"Police", "100", Severity.high⟩),
   ("ambulance", ⟨"Medical Emergency", "108", Severity.critical⟩),
   ("danger", ⟨"Emergency Services", "108", Severity.high⟩),
   ("attack", ⟨"Police", "100", Severity.critical⟩),
   ("accident", ⟨"Medical Emergency", "108", Severity.critical⟩),
   ("medical", ⟨"Medical Emergency", "108", Severity.high⟩),
   ("hurt", ⟨"Medical Emergency", "108", Severity.high⟩),
   ("bleeding", ⟨"Medical Emergency", "108", Severity.critical⟩),
   ("madad", ⟨"Emergency Services", "108", Severity.high⟩),
   ("bachaiye", ⟨"Emergency Services", "108", Severity.high⟩),
   ("aag", ⟨"Fire Department", "101", Severity.critical⟩),
   ("police_hindi", ⟨"Police", "100", Severity.high⟩),
   ("ambulance_hindi", ⟨"Medical Emergency", "108", Severity.critical⟩),
   ("khatre", ⟨"Emergency Services", "108", Severity.high⟩),
   ("hamla", ⟨"Police", "100", Severity.critical⟩),
   ("durghatna", ⟨"Medical Emergency", "108", Severity.critical⟩)]

/-- Does the character list l start with the character list pat. -/
def startsWith : List Char → List Char → Bool
  | _, [] => true
  | [], _ :: _ => false
  | c :: cs, d :: ds => c == d && startsWith cs ds

/-- Does the character list l contain pat as a contiguous run. -/
def containsSub : List Char → List Char → Bool
  | [], pat => pat.isEmpty
  | c :: cs, pat => startsWith (c :: cs) pat || containsSub cs pat

/-- transcript.includes(keyword) of the source: substring containment. -/
def includes (transcript keyword : String) : Bool :=
  containsSub transcript.toList keyword.toList

/-- Candidate test of the spotter loop: the transcript contains the
keyword of the entry. -/
def matchP (transcript : String) (e : String × KeywordInfo) : Bool :=
  includes transcript e.1

/-- Critical-candidate test: a candidate whose severity is critical. -/
def critP (transcript : String) (e : String × KeywordInfo) : Bool :=
  matchP transcript e && decide (e.2.severity = Severity.critical)

/-- Loop body of processVoiceTranscript: when the entry's keyword occurs
in the transcript and either nothing was detected yet or the entry is
critical, it becomes the detected keyword. -/
def spotStep (transcript : String) (acc : Option (String × KeywordInfo))
    (e : String × KeywordInfo) : Option (String × KeywordInfo) :=
  if matchP transcript e then
    if acc = none ∨ e.2.severity = Severity.critical then some e else acc
  else acc

/-- The keyword-selection core of processVoiceTranscript: fold the loop
body over the table in insertion order, starting from detectedKeyword =
null. -/
def spotKeyword (transcript : String) : Option (String × KeywordInfo) :=
  emergencyKeywords.foldl (spotStep transcript) none

/-- All candidates of a transcript, in table order. -/
def matchedCandidates (transcript : String) : List (String × KeywordInfo) :=
  emergencyKeywords.filter (matchP transcript)

/-- All critical candidates of a transcript, in table order. -/
def criticalCandidates (transcript : String) : List (String × KeywordInfo) :=
  emergencyKeywords.filter (critP transcript)

/-- Report kind, the type field of EmergencyReport in Index.tsx. -/
inductive ReportType where
  | SOS
  | Voice
  | Gesture
deriving DecidableEq

/-- Report status, set once at creation in createReport. -/
inductive ReportStatus where
  | pending
  | sent
  | failed
deriving DecidableEq

/-- Optional GPS fix attached to a report. -/
structure Location where
  lat : ℚ
  lng : ℚ
deriving DecidableEq

/-- One entry of the report log, interface EmergencyReport of Index.tsx. -/
structure EmergencyReport where
  id : String
  type : ReportType
  message : String
  location : Option Location
  timestamp : ℤ
  status : ReportStatus
deriving DecidableEq

/-- State of the Index page relevant to the report log: the connectivity
flag, the cached location, and the ordered report list. -/
structure AppState where
  isOnline : Bool
  location : Option Location
  reports : List EmergencyReport
deriving DecidableEq

/-- The online/offline event handlers: they only replace the flag. -/
def setOnline (s : AppState) (b : Bool) : AppState :=
  { s with isOnline := b }

/-- createReport of Index.tsx: id is Date.now().toString() (the clock
reading now), status is sent when online else pending, and the report is
appended to the log. -/
def createReport (s : AppState) (t : ReportType) (message : String)
    (now : ℤ) : AppState × EmergencyReport :=
  let newReport : EmergencyReport :=
    ⟨toString now, t, message, s.location, now,
      if s.isOnline then ReportStatus.sent else ReportStatus.pending⟩
  ({ s with reports := s.reports ++ [newReport] }, newReport)

/-- A 21-point hand with every landmark at the origin: all extension
tests are false (a fist) and handSizeSq is 0. -/
def zeroHand : List Landmark :=
  [⟨0, 0⟩, ⟨0, 0⟩, ⟨0, 0⟩, ⟨0, 0⟩, ⟨0, 0⟩, ⟨0, 0⟩, ⟨0, 0⟩, ⟨0, 0⟩, ⟨0, 0⟩,
   ⟨0, 0⟩, ⟨0, 0⟩, ⟨0, 0⟩, ⟨0, 0⟩, ⟨0, 0⟩, ⟨0, 0⟩, ⟨0, 0⟩, ⟨0, 0⟩, ⟨0, 0⟩,
   ⟨0, 0⟩, ⟨0, 0⟩, ⟨0, 0⟩]

/-- A 21-point fist whose wrist sits at the origin while the twenty other
landmarks sit at x = 0.15: every extension test is false and the
wrist-to-palm-center distance is exactly 0.15. -/
def fistAt015 : List Landmark :=
  [⟨0, 0⟩, ⟨3 / 20, 0⟩, ⟨3 / 20, 0⟩, ⟨3 / 20, 0⟩, ⟨3 / 20, 0⟩, ⟨3 / 20, 0⟩,
   ⟨3 / 20, 0⟩, ⟨3 / 20, 0⟩, ⟨3 / 20, 0⟩, ⟨3 / 20, 0⟩, ⟨3 / 20, 0⟩,
   ⟨3 / 20, 0⟩, ⟨3 / 20, 0⟩, ⟨3 / 20, 0⟩, ⟨3 / 20, 0⟩, ⟨3 / 20, 0⟩,
   ⟨3 / 20, 0⟩, ⟨3 / 20, 0⟩, ⟨3 / 20, 0⟩, ⟨3 / 20, 0⟩, ⟨3 / 20, 0⟩]

/-! Helper lemmas: nonnegativity, the square-root bridging equivalences,
list facts, and concrete evaluations used by witnesses. -/

/-- Squared distances are nonnegative. -/
lemma sqDist_nonneg (p q : Landmark) : 0 ≤ sqDist p q := by
  unfold sqDist; positivity

/-- The hand-size square is nonnegative. -/
lemma handSizeSq_nonneg (hand : List Landmark) : 0 ≤ handSizeSq hand :=
  sqDist_nonneg _ _

/-- The rational thumb test decides exactly the source comparison
thumbToWrist > thumbMcpToWrist * 1.2 on Euclidean distances. -/
lemma isThumbExtended_iff (t m w : Landmark) :
    isThumbExtended t m w = true ↔
      Real.sqrt (sqDist m w : ℝ) * (6 / 5) < Real.sqrt (sqDist t w : ℝ) := by
  rw [isThumbExtended, decide_eq_true_eq]
  have hB : (0 : ℝ) ≤ (sqDist m w : ℝ) := by
    exact_mod_cast sqDist_nonneg m w
  have hB' : (0 : ℝ) ≤ (36 / 25) * (sqDist m w : ℝ) :=
    mul_nonneg (by norm_num) hB
  have key : Real.sqrt ((36 / 25) * (sqDist m w : ℝ))
      = Real.sqrt (sqDist m w : ℝ) * (6 / 5) := by
    rw [show (36 / 25 : ℝ) = (6 / 5) ^ 2 by norm_num,
      Real.sqrt_mul (by positivity) _, Real.sqrt_sq (by norm_num)]
    ring
  constructor
  · intro h
    have hc := (Rat.cast_lt (K := ℝ)).mpr h
    push_cast at hc
    have h' : (36 / 25 : ℝ) * (sqDist m w : ℝ) < (sqDist t w : ℝ) := by linarith
    calc Real.sqrt (sqDist m w : ℝ) * (6 / 5)
        = Real.sqrt ((36 / 25) * (sqDist m w : ℝ)) := key.symm
      _ < Real.sqrt (sqDist t w : ℝ) := Real.sqrt_lt_sqrt hB' h'
  · intro h
    rw [← key] at h
    have h' := (Real.sqrt_lt_sqrt_iff hB').mp h
    have hc : (((36 / 25) * sqDist m w : ℚ) : ℝ) < ((sqDist t w : ℚ) : ℝ) := by
      push_cast
      linarith
    exact (Rat.cast_lt (K := ℝ)).mp hc

/-- The rational finger test decides exactly the source comparison
tipToMcp > (tipToPip + pipToMcp) * 0.8 on Euclidean distances. -/
lemma isFingerExtended_iff (tip pip mcp : Landmark) :
    isFingerExtended tip pip mcp = true ↔
      (Real.sqrt (sqDist tip pip : ℝ) + Real.sqrt (sqDist pip mcp : ℝ)) * (4 / 5)
        < Real.sqrt (sqDist tip mcp : ℝ) := by
  rw [isFingerExtended, decide_eq_true_eq]
  have hA : (0 : ℝ) ≤ (sqDist tip mcp : ℝ) := by exact_mod_cast sqDist_nonneg tip mcp
  have hB : (0 : ℝ) ≤ (sqDist tip pip : ℝ) := by exact_mod_cast sqDist_nonneg tip pip
  have hC : (0 : ℝ) ≤ (sqDist pip mcp : ℝ) := by exact_mod_cast sqDist_nonneg pip mcp
  have ha0 := Real.sqrt_nonneg ((sqDist tip mcp : ℝ))
  have hb0 := Real.sqrt_nonneg ((sqDist tip pip : ℝ))
  have hc0 := Real.sqrt_nonneg ((sqDist pip mcp : ℝ))
  have ha2 := Real.sq_sqrt hA
  have hb2 := Real.sq_sqrt hB
  have hc2 := Real.sq_sqrt hC
  have hbc : 0 ≤ Real.sqrt (sqDist tip pip : ℝ) * Real.sqrt (sqDist pip mcp : ℝ) :=
    mul_nonneg hb0 hc0
  constructor
  · rintro ⟨h1, h2⟩
    have h1c := (Rat.cast_lt (K := ℝ)).mpr h1
    have h2c := (Rat.cast_lt (K := ℝ)).mpr h2
    push_cast at h1c h2c
    have hstep : (32 / 25 : ℝ)
        * (Real.sqrt (sqDist tip pip : ℝ) * Real.sqrt (sqDist pip mcp : ℝ))
        < (sqDist tip mcp : ℝ)
            - 16 / 25 * ((sqDist tip pip : ℝ) + (sqDist pip mcp : ℝ)) := by
      nlinarith [h1c, h2c, hbc, hb2, hc2]
    nlinarith [hstep, ha0, hb0, hc0, ha2, hb2, hc2, hbc]
  · intro h
    have hsq : (16 / 25 : ℝ)
        * (Real.sqrt (sqDist tip pip : ℝ) + Real.sqrt (sqDist pip mcp : ℝ)) ^ 2
        < Real.sqrt (sqDist tip mcp : ℝ) ^ 2 := by
      nlinarith [h, ha0, hb0, hc0]
    have hL : (32 / 25 : ℝ)
        * (Real.sqrt (sqDist tip pip : ℝ) * Real.sqrt (sqDist pip mcp : ℝ))
        < (sqDist tip mcp : ℝ)
            - 16 / 25 * ((sqDist tip pip : ℝ) + (sqDist pip mcp : ℝ)) := by
      nlinarith [hsq, ha2, hb2, hc2]
    constructor
    · have hc : (((0 : ℚ)) : ℝ)
          < ((sqDist tip mcp - 16 / 25 * (sqDist tip pip + sqDist pip mcp) : ℚ) : ℝ) := by
        push_cast
        nlinarith [hL, hbc]
      exact (Rat.cast_lt (K := ℝ)).mp hc
    · have hc : (((1024 / 625) * (sqDist tip pip * sqDist pip mcp) : ℚ) : ℝ)
          < (((sqDist tip mcp - 16 / 25 * (sqDist tip pip + sqDist pip mcp)) ^ 2 : ℚ) : ℝ) := by
        push_cast
        nlinarith [hL, hbc, hb2, hc2]
      exact (Rat.cast_lt (K := ℝ)).mp hc

/-- The rational band test 9/400 < q < 4/25 decides exactly the source
comparison 0.15 < sqrt q < 0.4 (used with q = handSizeSq). -/
lemma sq_band_iff (q : ℚ) :
    ((9 : ℚ) / 400 < q ∧ q < 4 / 25) ↔
      ((3 : ℝ) / 20 < Real.sqrt (q : ℝ) ∧ Real.sqrt (q : ℝ) < 2 / 5) := by
  constructor
  · rintro ⟨h1, h2⟩
    have h1c := (Rat.cast_lt (K := ℝ)).mpr h1
    have h2c := (Rat.cast_lt (K := ℝ)).mpr h2
    push_cast at h1c h2c
    refine ⟨(Real.lt_sqrt (by norm_num)).mpr ?_, (Real.sqrt_lt' (by norm_num)).mpr ?_⟩
    · rw [show ((3 : ℝ) / 20) ^ 2 = 9 / 400 by norm_num]
      linarith
    · rw [show ((2 : ℝ) / 5) ^ 2 = 4 / 25 by norm_num]
      linarith
  · rintro ⟨h1, h2⟩
    have h1' := (Real.lt_sqrt (by norm_num)).mp h1
    have h2' := (Real.sqrt_lt' (by norm_num)).mp h2
    rw [show ((3 : ℝ) / 20) ^ 2 = 9 / 400 by norm_num] at h1'
    rw [show ((2 : ℝ) / 5) ^ 2 = 4 / 25 by norm_num] at h2'
    constructor
    · have hc : ((9 / 400 : ℚ) : ℝ) < ((q : ℚ) : ℝ) := by push_cast; linarith
      exact (Rat.cast_lt (K := ℝ)).mp hc
    · have hc : ((q : ℚ) : ℝ) < ((4 / 25 : ℚ) : ℝ) := by push_cast; linarith
      exact (Rat.cast_lt (K := ℝ)).mp hc

/-- getLast? of a cons, expressed through the tail. -/
lemma getLast?_cons_eq {α : Type} (a : α) (l : List α) :
    (a :: l).getLast? = some (l.getLast?.getD a) := by
  induction l generalizing a with
  | nil => rfl
  | cons b l ih =>
    rw [List.getLast?_cons_cons, ih b]
    rfl

/-- Every base confidence the pattern table can emit. -/
lemma matchPattern_base (t i m r p : Bool) (gt : GestureType) (b : ℚ)
    (h : matchPattern t i m r p = some (gt, b)) :
    b = 4 / 5 ∨ b = 17 / 20 ∨ b = 9 / 10 := by
  cases t <;> cases i <;> cases m <;> cases r <;> cases p <;>
    simp_all [matchPattern]

/-- Each pattern fixes its extension booleans, hence also the extended
count and with it the count bonus: base plus bonus is at least 0.85 in
every branch. -/
lemma matchPattern_count_bonus (t i m r p : Bool) (gt : GestureType) (b : ℚ)
    (h : matchPattern t i m r p = some (gt, b)) :
    17 / 20 ≤ b + (if extendedCount t i m r p = 1 ∨ extendedCount t i m r p = 2
      ∨ extendedCount t i m r p = 5 then 1 / 20 else 0) := by
  cases t <;> cases i <;> cases m <;> cases r <;> cases p <;>
    simp_all [matchPattern, extendedCount] <;>
    rcases h with ⟨h1, h2⟩ <;> subst h2 <;> norm_num

/-- Structure of a successful classification: a pattern matched on the
extension booleans of the hand and the confidence is the adjusted base. -/
lemma recognizeGesture_eq (hand : List Landmark) (g : GestureResult)
    (hg : recognizeGesture hand = some g) :
    ∃ base : ℚ,
      matchPattern (thumbExtOf hand) (indexExtOf hand) (middleExtOf hand)
        (ringExtOf hand) (pinkyExtOf hand) = some (g.type, base) ∧
      g.confidence = adjustConfidence base (extCountOf hand) (handSizeSq hand) := by
  unfold recognizeGesture at hg
  by_cases hl : hand.length < 21
  · rw [if_pos hl] at hg
    simp at hg
  · rw [if_neg hl] at hg
    rcases hmp : matchPattern (thumbExtOf hand) (indexExtOf hand) (middleExtOf hand)
        (ringExtOf hand) (pinkyExtOf hand) with _ | ⟨gt, base⟩
    · rw [hmp] at hg
      simp at hg
    · rw [hmp] at hg
      obtain rfl : (⟨gt, adjustConfidence base (extCountOf hand) (handSizeSq hand)⟩
          : GestureResult) = g := Option.some.inj hg
      exact ⟨base, rfl, rfl⟩

/-- The confidence part of adjustConfidence, spelled out by cases on the
two bonus conditions. -/
lemma adjustConfidence_cases (base : ℚ) (count : ℕ) (hs : ℚ) :
    adjustConfidence base count hs =
      min ((if count = 1 ∨ count = 2 ∨ count = 5 then base + 1 / 20 else base)
        + (if 9 / 400 < hs ∧ hs < 4 / 25 then 1 / 20 else 0)) (19 / 20) := by
  unfold adjustConfidence
  dsimp only
  by_cases h2 : 9 / 400 < hs ∧ hs < 4 / 25
  · rw [if_pos h2, if_pos h2]
  · rw [if_neg h2, if_neg h2, add_zero]

/-- Concrete evaluation: the all-zero hand classifies as a fist with
confidence 0.9 (count 0, hand size 0, no bonus). -/
lemma recognizeGesture_zeroHand :
    recognizeGesture zeroHand = some ⟨GestureType.fist, 9 / 10⟩ := by
  norm_num [recognizeGesture, zeroHand, thumbExtOf, indexExtOf, middleExtOf,
    ringExtOf, pinkyExtOf, isThumbExtended, isFingerExtended, sqDist, dfl,
    extCountOf, extendedCount, handSizeSq, palmCenterOf, adjustConfidence,
    matchPattern, min_def]

/-- Concrete evaluation: the fist whose landmarks sit 0.15 from the wrist
classifies as a fist with confidence 0.9: the hand-size test
handSize > 0.15 is strict, so no size bonus at exactly 0.15. -/
lemma recognizeGesture_fistAt015 :
    recognizeGesture fistAt015 = some ⟨GestureType.fist, 9 / 10⟩ := by
  norm_num [recognizeGesture, fistAt015, thumbExtOf, indexExtOf, middleExtOf,
    ringExtOf, pinkyExtOf, isThumbExtended, isFingerExtended, sqDist, dfl,
    extCountOf, extendedCount, handSizeSq, palmCenterOf, adjustConfidence,
    matchPattern, min_def]

/-- Concrete evaluation: the squared wrist-to-palm-center distance of
fistAt015 is exactly 0.0225, so the distance itself is exactly 0.15. -/
lemma handSizeSq_fistAt015 : handSizeSq fistAt015 = 9 / 400 := by
  norm_num [handSizeSq, fistAt015, palmCenterOf, sqDist, dfl]

/-- Concrete evaluation: the hand-size square of the all-zero hand is 0. -/
lemma handSizeSq_zeroHand : handSizeSq zeroHand = 0 := by
  norm_num [handSizeSq, zeroHand, palmCenterOf, sqDist, dfl]

/-- Folding the spotter loop from an already-detected entry: every later
critical candidate overrides, nothing else does, so the result is the
last critical candidate when one exists and the accumulator otherwise. -/
lemma spotFold_some (tr : String) (L : List (String × KeywordInfo))
    (a : String × KeywordInfo) :
    L.foldl (spotStep tr) (some a)
      = some (((L.filter (critP tr)).getLast?).getD a) := by
  induction L generalizing a with
  | nil => rfl
  | cons e L ih =>
    rw [List.foldl_cons]
    by_cases hm : matchP tr e = true
    · by_cases hc : e.2.severity = Severity.critical
      · have hstep : spotStep tr (some a) e = some e := by
          unfold spotStep
          rw [if_pos hm, if_pos (Or.inr hc)]
        have hf : (e :: L).filter (critP tr) = e :: L.filter (critP tr) :=
          List.filter_cons_of_pos (by rw [critP, hm, Bool.true_and, decide_eq_true_eq]; exact hc)
        rw [hstep, ih e, hf, getLast?_cons_eq]
        rfl
      · have hstep : spotStep tr (some a) e = some a := by
          unfold spotStep
          rw [if_pos hm, if_neg ?_]
          rintro (hnone | hcrit)
          · exact Option.noConfusion hnone
          · exact hc hcrit
        have hf : (e :: L).filter (critP tr) = L.filter (critP tr) :=
          List.filter_cons_of_neg (by simp [critP, hm, hc])
        rw [hstep, ih a, hf]
    · have hm' : matchP tr e = false := by simpa using hm
      have hstep : spotStep tr (some a) e = some a := by
        unfold spotStep
        rw [if_neg (by simp [hm'])]
      have hf : (e :: L).filter (critP tr) = L.filter (critP tr) :=
        List.filter_cons_of_neg (by simp [critP, hm'])
      rw [hstep, ih a, hf]

/-- Folding the spotter loop from an empty accumulator: the result is the
last critical candidate when one exists, else the first candidate. -/
lemma spotFold_none (tr : String) (L : List (String × KeywordInfo)) :
    L.foldl (spotStep tr) none
      = Option.orElse ((L.filter (critP tr)).getLast?)
          (fun _ => (L.filter (matchP tr)).head?) := by
  induction L with
  | nil => rfl
  | cons e L ih =>
    rw [List.foldl_cons]
    by_cases hm : matchP tr e = true
    · have hstep : spotStep tr none e = some e := by
        unfold spotStep
        rw [if_pos hm, if_pos (Or.inl rfl)]
      have hmf : (e :: L).filter (matchP tr) = e :: L.filter (matchP tr) :=
        List.filter_cons_of_pos hm
      rw [hstep, spotFold_some, hmf]
      by_cases hc : e.2.severity = Severity.critical
      · have hcf : (e :: L).filter (critP tr) = e :: L.filter (critP tr) :=
          List.filter_cons_of_pos (by rw [critP, hm, Bool.true_and, decide_eq_true_eq]; exact hc)
        rw [hcf, getLast?_cons_eq]
        rfl
      · have hcf : (e :: L).filter (critP tr) = L.filter (critP tr) :=
          List.filter_cons_of_neg (by simp [critP, hm, hc])
        rw [hcf]
        cases hlast : (L.filter (critP tr)).getLast? with
        | none => rfl
        | some x => rfl
    · have hm' : matchP tr e = false := by simpa using hm
      have hstep : spotStep tr none e = none := by
        unfold spotStep
        rw [if_neg (by simp [hm'])]
      have hmf : (e :: L).filter (matchP tr) = L.filter (matchP tr) :=
        List.filter_cons_of_neg (by simp [hm'])
      have hcf : (e :: L).filter (critP tr) = L.filter (critP tr) :=
        List.filter_cons_of_neg (by simp [critP, hm'])
      rw [hstep, hmf, hcf, ih]

/-- Pattern match of the all-zero hand: no finger extended, so the fist
row fires with base confidence 0.9. -/
lemma matchPattern_zeroHand :
    matchPattern (thumbExtOf zeroHand) (indexExtOf zeroHand) (middleExtOf zeroHand)
      (ringExtOf zeroHand) (pinkyExtOf zeroHand) = some (GestureType.fist, 9 / 10) := by
  norm_num [matchPattern, zeroHand, thumbExtOf, indexExtOf, middleExtOf,
    ringExtOf, pinkyExtOf, isThumbExtended, isFingerExtended, sqDist, dfl]

/-- Extended-finger count of the all-zero hand. -/
lemma extCountOf_zeroHand : extCountOf zeroHand = 0 := by
  norm_num [extCountOf, extendedCount, zeroHand, thumbExtOf, indexExtOf,
    middleExtOf, ringExtOf, pinkyExtOf, isThumbExtended, isFingerExtended,
    sqDist, dfl]

/-- Extended-finger count of the 0.15-scale fist. -/
lemma extCountOf_fistAt015 : extCountOf fistAt015 = 0 := by
  norm_num [extCountOf, extendedCount, fistAt015, thumbExtOf, indexExtOf,
    middleExtOf, ringExtOf, pinkyExtOf, isThumbExtended, isFingerExtended,
    sqDist, dfl]

/-! Claim theorems. -/

/-- C1 (counterexample): on the transcript
"there is a fire and ambulance needed" the critical candidates are fire
(earlier in the table) and ambulance (later), yet the spotter returns
ambulance, not the earliest-found critical candidate fire as the claim
states. -/
theorem spotKeyword_latest_critical_cex :
    spotKeyword "there is a fire and ambulance needed"
        = some ("ambulance", ⟨"Medical Emergency", "108", Severity.critical⟩) ∧
    (criticalCandidates "there is a fire and ambulance needed").head?
        = some ("fire", ⟨"Fire Department", "101", Severity.critical⟩) ∧
    ("ambulance" : String) ≠ "fire" :=
  ⟨by decide, by decide, by decide⟩

/-- C1 (amended): for every transcript, the spotter returns the
last-found critical candidate when any critical candidate exists (each
critical match overrides the current best), and otherwise the first
candidate in table order. -/
theorem spotKeyword_selection_policy (transcript : String) :
    spotKeyword transcript
      = Option.orElse ((criticalCandidates transcript).getLast?)
          (fun _ => (matchedCandidates transcript).head?) :=
  spotFold_none transcript emergencyKeywords

/-- Witness for C1 (amended) at a concrete transcript. -/
theorem spotKeyword_selection_policy_witness :
    spotKeyword "help there is a fire"
      = Option.orElse ((criticalCandidates "help there is a fire").getLast?)
          (fun _ => (matchedCandidates "help there is a fire").head?) :=
  spotKeyword_selection_policy "help there is a fire"

/-- C2: the pattern stage of the classifier maps the five extension
booleans to gesture type and base confidence exactly per the fixed
table: only-thumb gives thumb_up at 0.90, index+middle only gives
peace_sign at 0.90, index only gives pointing at 0.85, none gives fist
at 0.90, all five gives open_palm at 0.80, thumb+index only gives
ok_sign at 0.80, and every other 5-tuple yields none. -/
theorem matchPattern_table :
    matchPattern true false false false false = some (GestureType.thumb_up, 9 / 10) ∧
    matchPattern false true true false false = some (GestureType.peace_sign, 9 / 10) ∧
    matchPattern false true false false false = some (GestureType.pointing, 17 / 20) ∧
    matchPattern false false false false false = some (GestureType.fist, 9 / 10) ∧
    matchPattern true true true true true = some (GestureType.open_palm, 4 / 5) ∧
    matchPattern true true false false false = some (GestureType.ok_sign, 4 / 5) ∧
    (∀ t i m r p : Bool,
      matchPattern t i m r p = none ∨
        (t, i, m, r, p) ∈ ([(true, false, false, false, false),
          (false, true, true, false, false), (false, true, false, false, false),
          (false, false, false, false, false), (true, true, true, true, true),
          (true, true, false, false, false)] :
            List (Bool × Bool × Bool × Bool × Bool))) :=
  ⟨rfl, rfl, rfl, rfl, rfl, rfl, by decide⟩

/-- C3 (counterexample): a fist whose wrist-to-palm-center distance is
exactly 0.15 lies in the claimed closed interval [0.15, 0.4], yet its
confidence is 0.9, not 0.9 + 0.05: the source test handSize > 0.15 is
strict, so the boundary gets no size bonus (the count bonus is also
absent: zero fingers are extended). -/
theorem sizeBonus_boundary_cex :
    recognizeGesture fistAt015 = some ⟨GestureType.fist, 9 / 10⟩ ∧
    Real.sqrt (handSizeSq fistAt015 : ℝ) = 3 / 20 ∧
    ((3 / 20 : ℝ) ≤ Real.sqrt (handSizeSq fistAt015 : ℝ) ∧
      Real.sqrt (handSizeSq fistAt015 : ℝ) ≤ 2 / 5) ∧
    extCountOf fistAt015 = 0 ∧
    (9 : ℚ) / 10 ≠ min (9 / 10 + 1 / 20) (19 / 20) := by
  have hs : Real.sqrt (handSizeSq fistAt015 : ℝ) = 3 / 20 := by
    rw [handSizeSq_fistAt015,
      show ((9 / 400 : ℚ) : ℝ) = (3 / 20 : ℝ) ^ 2 by push_cast; norm_num]
    exact Real.sqrt_sq (by norm_num)
  refine ⟨recognizeGesture_fistAt015, hs, ⟨by rw [hs], by rw [hs]; norm_num⟩,
    extCountOf_fistAt015, by norm_num [min_def]⟩

/-- C3 (amended): for every classified hand with pattern base
confidence, the adjustment adds 0.05 when exactly 1, 2 or 5 fingers are
extended, adds 0.05 when the wrist-to-palm-center distance lies in the
open interval (0.15, 0.4), and clamps the result at 0.95; the four
conjuncts spell the four bonus combinations out. -/
theorem recognizeGesture_confidence_adjustment (hand : List Landmark)
    (g : GestureResult) (base : ℚ)
    (hm : matchPattern (thumbExtOf hand) (indexExtOf hand) (middleExtOf hand)
        (ringExtOf hand) (pinkyExtOf hand) = some (g.type, base))
    (hg : recognizeGesture hand = some g) :
    ((extCountOf hand = 1 ∨ extCountOf hand = 2 ∨ extCountOf hand = 5) →
        ((3 / 20 : ℝ) < Real.sqrt (handSizeSq hand : ℝ) ∧
          Real.sqrt (handSizeSq hand : ℝ) < 2 / 5) →
        g.confidence = min (base + 1 / 20 + 1 / 20) (19 / 20)) ∧
    ((extCountOf hand = 1 ∨ extCountOf hand = 2 ∨ extCountOf hand = 5) →
        ¬((3 / 20 : ℝ) < Real.sqrt (handSizeSq hand : ℝ) ∧
          Real.sqrt (handSizeSq hand : ℝ) < 2 / 5) →
        g.confidence = min (base + 1 / 20) (19 / 20)) ∧
    (¬(extCountOf hand = 1 ∨ extCountOf hand = 2 ∨ extCountOf hand = 5) →
        ((3 / 20 : ℝ) < Real.sqrt (handSizeSq hand : ℝ) ∧
          Real.sqrt (handSizeSq hand : ℝ) < 2 / 5) →
        g.confidence = min (base + 1 / 20) (19 / 20)) ∧
    (¬(extCountOf hand = 1 ∨ extCountOf hand = 2 ∨ extCountOf hand = 5) →
        ¬((3 / 20 : ℝ) < Real.sqrt (handSizeSq hand : ℝ) ∧
          Real.sqrt (handSizeSq hand : ℝ) < 2 / 5) →
        g.confidence = min base (19 / 20)) := by
  obtain ⟨base', hm', hc⟩ := recognizeGesture_eq hand g hg
  obtain rfl : base = base' := by
    have := Option.some.inj (hm.symm.trans hm')
    exact congrArg Prod.snd this
  have hband := sq_band_iff (handSizeSq hand)
  rw [hc, adjustConfidence_cases]
  refine ⟨?_, ?_, ?_, ?_⟩
  · intro hcnt hb
    rw [if_pos hcnt, if_pos (hband.mpr hb)]
  · intro hcnt hnb
    rw [if_pos hcnt, if_neg (fun hq => hnb (hband.mp hq)), add_zero]
  · intro hncnt hb
    rw [if_neg hncnt, if_pos (hband.mpr hb)]
  · intro hncnt hnb
    rw [if_neg hncnt, if_neg (fun hq => hnb (hband.mp hq)), add_zero]

/-- Witness for C3 (amended) at the all-zero fist: no bonus applies and
the confidence is min 0.9 0.95 = 0.9. -/
theorem recognizeGesture_confidence_adjustment_witness :
    (9 : ℚ) / 10 = min ((9 : ℚ) / 10) (19 / 20) := by
  have h := recognizeGesture_confidence_adjustment zeroHand
    ⟨GestureType.fist, 9 / 10⟩ (9 / 10) matchPattern_zeroHand recognizeGesture_zeroHand
  refine h.2.2.2 ?_ ?_
  · rw [extCountOf_zeroHand]
    decide
  · rw [handSizeSq_zeroHand]
    rintro ⟨hlt, -⟩
    rw [Rat.cast_zero, Real.sqrt_zero] at hlt
    norm_num at hlt

/-- C4: every classification the recognizer returns carries a confidence
that is strictly positive and at most 0.95. -/
theorem recognizeGesture_confidence_range (hand : List Landmark)
    (g : GestureResult) (hg : recognizeGesture hand = some g) :
    0 < g.confidence ∧ g.confidence ≤ 19 / 20 := by
  obtain ⟨base, hm, hc⟩ := recognizeGesture_eq hand g hg
  have hb := matchPattern_base _ _ _ _ _ _ _ hm
  rw [hc, adjustConfidence_cases]
  constructor
  · apply lt_min
    · rcases hb with hb | hb | hb <;> subst hb <;> split_ifs <;> norm_num
    · norm_num
  · exact min_le_right _ _

/-- Witness for C4 at the all-zero fist. -/
theorem recognizeGesture_confidence_range_witness :
    0 < (9 : ℚ) / 10 ∧ (9 : ℚ) / 10 ≤ 19 / 20 :=
  recognizeGesture_confidence_range zeroHand ⟨GestureType.fist, 9 / 10⟩
    recognizeGesture_zeroHand

/-- C5: a landmark list with fewer than 21 points classifies as none, a
normal negative result. -/
theorem recognizeGesture_short_hand (hand : List Landmark)
    (h : hand.length < 21) : recognizeGesture hand = none := by
  unfold recognizeGesture
  rw [if_pos h]

/-- Witness for C5 at the empty landmark list. -/
theorem recognizeGesture_short_hand_witness :
    recognizeGesture ([] : List Landmark) = none :=
  recognizeGesture_short_hand [] (by decide)

/-- C6: the debouncer drops an accepted classification exactly when the
most recent history entry has the identical label and is less than
1000 ms old, and otherwise appends exactly one new entry. -/
theorem appendGesture_dedup_spec (prev : List GestureData) (lbl : String)
    (c : ℚ) (now : ℤ) (m : Mode) :
    ((∃ e, prev.getLast? = some e ∧ e.gesture = lbl ∧ now - e.timestamp < 1000) →
      appendGesture prev lbl c now m = prev) ∧
    ((∀ e, prev.getLast? = some e → e.gesture ≠ lbl ∨ 1000 ≤ now - e.timestamp) →
      appendGesture prev lbl c now m = prev ++ [⟨lbl, c, now, m⟩]) := by
  constructor
  · rintro ⟨e, he, h1, h2⟩
    unfold appendGesture
    rw [he]
    dsimp only
    rw [if_pos ⟨h1, h2⟩]
  · intro hall
    unfold appendGesture
    cases he : prev.getLast? with
    | none => dsimp only
    | some e =>
        dsimp only
        rcases hall e he with hne | hge
        · rw [if_neg (fun hq => hne hq.1)]
        · rw [if_neg (fun hq => absurd hq.2 (by omega))]

/-- Witness for C6: a second identical label 500 ms later is dropped; at
1000 ms the window has elapsed and a second entry is appended. -/
theorem appendGesture_dedup_spec_witness :
    appendGesture [⟨"A", 9 / 10, 0, Mode.alphabet⟩] "A" (9 / 10) 500 Mode.alphabet
        = [⟨"A", 9 / 10, 0, Mode.alphabet⟩] ∧
    appendGesture [⟨"A", 9 / 10, 0, Mode.alphabet⟩] "A" (9 / 10) 1000 Mode.alphabet
        = [⟨"A", 9 / 10, 0, Mode.alphabet⟩, ⟨"A", 9 / 10, 1000, Mode.alphabet⟩] := by
  constructor
  · exact (appendGesture_dedup_spec _ "A" (9 / 10) 500 Mode.alphabet).1
      ⟨⟨"A", 9 / 10, 0, Mode.alphabet⟩, rfl, rfl, by decide⟩
  · refine (appendGesture_dedup_spec _ "A" (9 / 10) 1000 Mode.alphabet).2 ?_
    intro e he
    obtain rfl : (⟨"A", 9 / 10, 0, Mode.alphabet⟩ : GestureData) = e :=
      Option.some.inj he
    right
    decide

/-- C7: switching the mode replaces only the mode state, leaving every
existing history entry untouched, and a classification accepted after
the switch is labeled through the new mode's table. -/
theorem setMode_preserves_history (s : RecognitionSession) (m : Mode) :
    (setMode s m).history = s.history ∧
    (setMode s m).mode = m ∧
    (∀ (hand : List Landmark) (now : ℤ) (g : GestureResult) (lbl : String),
      recognizeGesture hand = some g →
      getCurrentGestures m g.type = some lbl →
      7 / 10 < g.confidence →
      processFrame (setMode s m) hand now =
        { mode := m
          history := appendGesture s.history lbl g.confidence now m
          currentText := lbl
          confidence := g.confidence }) := by
  refine ⟨rfl, rfl, ?_⟩
  intro hand now g lbl hg hlbl hconf
  unfold processFrame
  rw [hg]
  dsimp only
  rw [show getCurrentGestures (setMode s m).mode g.type
      = getCurrentGestures m g.type from rfl, hlbl]
  dsimp only
  rw [if_pos hconf]
  rfl

/-- Witness for C7: switching to word mode and feeding the all-zero
fist appends the word label NO over the untouched empty history. -/
theorem setMode_preserves_history_witness :
    (setMode ⟨Mode.alphabet, [], "", 0⟩ Mode.word).history = ([] : List GestureData) ∧
    (setMode ⟨Mode.alphabet, [], "", 0⟩ Mode.word).mode = Mode.word ∧
    processFrame (setMode ⟨Mode.alphabet, [], "", 0⟩ Mode.word) zeroHand 0 =
      { mode := Mode.word
        history := appendGesture [] "NO" (9 / 10) 0 Mode.word
        currentText := "NO"
        confidence := 9 / 10 } := by
  have h := setMode_preserves_history ⟨Mode.alphabet, [], "", 0⟩ Mode.word
  exact ⟨h.1, h.2.1, h.2.2 zeroHand 0 ⟨GestureType.fist, 9 / 10⟩ "NO"
    recognizeGesture_zeroHand rfl (by norm_num)⟩

/-- C8: a created report is sent exactly when the connectivity flag is
true at creation, reports are only appended, toggling connectivity
touches no stored report, and the offline-then-online double append
yields statuses pending then sent. -/
theorem createReport_status_spec (s : AppState) (t : ReportType)
    (msg : String) (now : ℤ) :
    (createReport s t msg now).2.status
        = (if s.isOnline then ReportStatus.sent else ReportStatus.pending) ∧
    (createReport s t msg now).1.reports
        = s.reports ++ [(createReport s t msg now).2] ∧
    (∀ b : Bool, (setOnline s b).reports = s.reports) ∧
    (∀ (s0 : AppState) (t1 : ReportType) (m1 : String) (n1 : ℤ)
        (t2 : ReportType) (m2 : String) (n2 : ℤ),
      s0.reports = [] → s0.isOnline = false →
      ((createReport (setOnline (createReport s0 t1 m1 n1).1 true) t2 m2 n2).1.reports.map
          (fun r => r.status))
        = [ReportStatus.pending, ReportStatus.sent]) := by
  refine ⟨rfl, rfl, fun b => rfl, ?_⟩
  intro s0 t1 m1 n1 t2 m2 n2 h1 h2
  simp [createReport, setOnline, h1, h2]

/-- Witness for C8: online SOS append is sent; the offline append then
online append scenario gives pending then sent. -/
theorem createReport_status_spec_witness :
    (createReport ⟨true, none, []⟩ ReportType.SOS "Emergency SOS activated" 5).2.status
        = (if (⟨true, none, []⟩ : AppState).isOnline then ReportStatus.sent
            else ReportStatus.pending) ∧
    ((createReport (setOnline (createReport ⟨false, none, []⟩ ReportType.SOS
          "Emergency SOS activated" 0).1 true) ReportType.SOS
          "Emergency SOS activated" 7).1.reports.map (fun r => r.status))
        = [ReportStatus.pending, ReportStatus.sent] := by
  have h := createReport_status_spec ⟨true, none, []⟩ ReportType.SOS
    "Emergency SOS activated" 5
  exact ⟨h.1, h.2.2.2 ⟨false, none, []⟩ ReportType.SOS "Emergency SOS activated" 0
    ReportType.SOS "Emergency SOS activated" 7 rfl rfl⟩

/-- C9 (code evaluation at the failing input): two appends that read the
same clock millisecond produce two reports with the same id, Date.now
stringified, so id uniqueness fails. -/
theorem createReport_duplicate_ids :
    ((createReport (createReport ⟨false, none, []⟩ ReportType.SOS
        "Emergency SOS activated" 0).1 ReportType.Voice "voice report" 0).1.reports.map
          (fun r => r.id))
      = [toString (0 : ℤ), toString (0 : ℤ)] := rfl

/-- C10: every returned classification has confidence at least 0.85,
hence strictly above the 0.7 gate, and therefore whenever the label
lookup succeeds the frame is accepted: display state and history are
updated, never rejected by the confidence gate. -/
theorem recognizeGesture_confidence_above_threshold (hand : List Landmark)
    (g : GestureResult) (hg : recognizeGesture hand = some g) :
    17 / 20 ≤ g.confidence ∧ 7 / 10 < g.confidence ∧
    (∀ (s : RecognitionSession) (now : ℤ) (lbl : String),
      getCurrentGestures s.mode g.type = some lbl →
      processFrame s hand now =
        { s with
          currentText := lbl
          confidence := g.confidence
          history := appendGesture s.history lbl g.confidence now s.mode }) := by
  obtain ⟨base, hm, hc⟩ := recognizeGesture_eq hand g hg
  have hcb := matchPattern_count_bonus _ _ _ _ _ _ _ hm
  have hcb' : 17 / 20 ≤ base + (if extCountOf hand = 1 ∨ extCountOf hand = 2
      ∨ extCountOf hand = 5 then (1 : ℚ) / 20 else 0) := hcb
  have h17 : 17 / 20 ≤ g.confidence := by
    rw [hc, adjustConfidence_cases]
    apply le_min
    · split_ifs at hcb' ⊢ <;> linarith
    · norm_num
  have hgate : (7 : ℚ) / 10 < g.confidence := lt_of_lt_of_le (by norm_num) h17
  refine ⟨h17, hgate, ?_⟩
  intro s now lbl hlbl
  unfold processFrame
  rw [hg]
  dsimp only
  rw [hlbl]
  dsimp only
  rw [if_pos hgate]

/-- Witness for C10 at the all-zero fist in alphabet mode. -/
theorem recognizeGesture_confidence_above_threshold_witness :
    (17 : ℚ) / 20 ≤ 9 / 10 ∧ (7 : ℚ) / 10 < 9 / 10 ∧
    processFrame ⟨Mode.alphabet, [], "", 0⟩ zeroHand 0 =
      { mode := Mode.alphabet
        history := appendGesture [] "B" (9 / 10) 0 Mode.alphabet
        currentText := "B"
        confidence := 9 / 10 } := by
  have h := recognizeGesture_confidence_above_threshold zeroHand
    ⟨GestureType.fist, 9 / 10⟩ recognizeGesture_zeroHand
  exact ⟨h.1, h.2.1, h.2.2 ⟨Mode.alphabet, [], "", 0⟩ 0 "B" rfl⟩

end SafeHaven
